import Mathlib

/-!
Verification of the Signal Decision Pipeline of the forex-ai-platform
backend: a shallow embedding in Lean 4 of the Adaptive Weight Learner
(`src/backend/src/ai/reinforcementLearning.js`), the Market Structure
Engine (`src/src/ai/smartMoneyEngine.js`) and the Decision Fusion Engine
(`src/backend/src/ai/decisionEngine.js`), together with proofs of the
specification's testable properties.

JavaScript numbers are modelled by `ℚ` (the algorithms use only field
operations and comparisons; the spec states its numeric properties up to
floating tolerance, which exact rational arithmetic witnesses).
`Math.round(x)` is modelled by Mathlib's `round` (both are ⌊x + 1/2⌋),
and `x.toFixed(2)`, where it is later read back as a number, by
`round (x * 100) / 100`.  Fallible code paths (JavaScript property
accesses on `null`/`undefined` that would throw) are modelled by
`Option`.
-/

namespace ForexAI

/-- The four configured timeframes (`this.timeframes = ['4H','1H','15M','5M']`
in `smartMoneyEngine.js`, and the keys of `timeframeWeights` in
`reinforcementLearning.js`). -/
inductive TF
  | h4
  | h1
  | m15
  | m5
deriving DecidableEq, Repr

/-- The eight Smart-Money pattern tags: the keys of `patternWeights` in
`reinforcementLearning.js` (`BULLISH_SWEEP`, …, `BEARISH_CHOCH`). -/
inductive Pattern
  | bullishSweep
  | bearishSweep
  | bullishOB
  | bearishOB
  | bullishBOS
  | bearishBOS
  | bullishCHOCH
  | bearishCHOCH
deriving DecidableEq, Repr

/-- A trade's `result` field: `OPEN` while pending, else
`WIN`/`LOSS`/`BREAKEVEN` (`reinforcementLearning.js`). -/
inductive TradeResult
  | OPEN
  | WIN
  | LOSS
  | BREAKEVEN
deriving DecidableEq, Repr

/-- The fields of a closed-trade record that `learnFromTrade` reads:
`result`, `timeframe` (`none` models a timeframe string that is not a key
of `timeframeWeights`), `smartMoneyPatterns`, `mlProbability`. -/
structure TradeRecord where
  result : TradeResult
  timeframe : Option TF
  smartMoneyPatterns : List Pattern
  mlProbability : ℚ
deriving DecidableEq, Repr

/-- The Adaptive Weight Learner's persistent state: the three weight maps
of `ReinforcementLearningEngine` (`modelWeights` with its three fixed keys
`randomForest`/`gradientBoosting`/`lstm`, `timeframeWeights`,
`patternWeights`). -/
structure RLState where
  randomForest : ℚ
  gradientBoosting : ℚ
  lstm : ℚ
  timeframeWeights : TF → ℚ
  patternWeights : Pattern → ℚ

/-- `this.learningRate = 0.05`. -/
def learningRate : ℚ := 1 / 20

/-- The constructor's initial weights: models 0.30/0.35/0.35, every
timeframe and pattern weight 1.0. -/
def defaultRLState : RLState :=
  { randomForest := 3 / 10
    gradientBoosting := 7 / 20
    lstm := 7 / 20
    timeframeWeights := fun _ => 1
    patternWeights := fun _ => 1 }

/-- `Math.max(0.5, Math.min(1.5, w + adjustment))` — the clamp applied to
timeframe and pattern weights. -/
def clampTF (x : ℚ) : ℚ := max (1 / 2) (min (3 / 2) x)

/-- `Math.max(0.1, Math.min(0.6, w + mlAdjustment * w))` — the clamp
applied to each model weight. -/
def clampModel (x : ℚ) : ℚ := max (1 / 10) (min (3 / 5) x)

/-- `normalizeModelWeights()`: divides each of the three model weights by
their sum. -/
def normalizeModelWeights (s : RLState) : RLState :=
  let total := s.randomForest + s.gradientBoosting + s.lstm
  { s with
    randomForest := s.randomForest / total
    gradientBoosting := s.gradientBoosting / total
    lstm := s.lstm / total }

/-- Section "1. AJUSTA PESOS DE TIMEFRAME" of `learnFromTrade`: when the
trade's timeframe is a key of `timeframeWeights`, clamp
`w + reward·learningRate` into [0.5, 1.5]; otherwise leave the state
unchanged. -/
def timeframeStep (reward : ℚ) (timeframe : Option TF) (s : RLState) : RLState :=
  match timeframe with
  | some tf =>
      let w := Function.update s.timeframeWeights tf
        (clampTF (s.timeframeWeights tf + reward * learningRate))
      { s with timeframeWeights := w }
  | none => s

/-- The loop body of section "2. AJUSTA PESOS DE PADRÕES SMART MONEY" of
`learnFromTrade`: one pattern's weight clamped after adding
`reward·learningRate`. -/
def patternStep (reward : ℚ) (s : RLState) (p : Pattern) : RLState :=
  let w := Function.update s.patternWeights p
    (clampTF (s.patternWeights p + reward * learningRate))
  { s with patternWeights := w }

/-- Section "3. AJUSTA PESOS DOS MODELOS ML" of `learnFromTrade`: when
`trade.mlProbability` is truthy (≠ 0), each model weight becomes
`clamp(w + mlAdjustment·w, 0.1, 0.6)` with
`mlAdjustment = reward·learningRate·mlProbability/100`, and the three are
then renormalized to sum 1. -/
def modelStep (reward mlProbability : ℚ) (s : RLState) : RLState :=
  if mlProbability ≠ 0 then
    let mlAdjustment := reward * learningRate * (mlProbability / 100)
    normalizeModelWeights
      { s with
        randomForest := clampModel (s.randomForest + mlAdjustment * s.randomForest)
        gradientBoosting := clampModel (s.gradientBoosting + mlAdjustment * s.gradientBoosting)
        lstm := clampModel (s.lstm + mlAdjustment * s.lstm) }
  else s

/-- `learnFromTrade(trade)` of `reinforcementLearning.js` (lines 166-230):
returns unchanged state while `trade.result === 'OPEN'`; otherwise
`reward = (trade.result === 'WIN') ? 1 : -1` and the three weight
adjustments above are applied in order. -/
def learnFromTrade (s : RLState) (trade : TradeRecord) : RLState :=
  if trade.result = .OPEN then s
  else
    let reward : ℚ := if trade.result = .WIN then 1 else -1
    let s1 := timeframeStep reward trade.timeframe s
    let s2 := trade.smartMoneyPatterns.foldl (patternStep reward) s1
    modelStep reward trade.mlProbability s2

/-- Folding `learnFromTrade` over a sequence of trade outcomes. -/
def learnAll (s : RLState) (trades : List TradeRecord) : RLState :=
  trades.foldl learnFromTrade s

/-- The bound stated by the spec for the learner's weights: every
timeframe and pattern weight in [0.5, 1.5], every model weight in
[0.1, 0.6], the three model weights summing to 1. -/
def WeightsBounded (s : RLState) : Prop :=
  (∀ tf, 1 / 2 ≤ s.timeframeWeights tf ∧ s.timeframeWeights tf ≤ 3 / 2) ∧
  (∀ p, 1 / 2 ≤ s.patternWeights p ∧ s.patternWeights p ≤ 3 / 2) ∧
  (1 / 10 ≤ s.randomForest ∧ s.randomForest ≤ 3 / 5) ∧
  (1 / 10 ≤ s.gradientBoosting ∧ s.gradientBoosting ≤ 3 / 5) ∧
  (1 / 10 ≤ s.lstm ∧ s.lstm ≤ 3 / 5) ∧
  s.randomForest + s.gradientBoosting + s.lstm = 1

/-- A BREAKEVEN closed trade on timeframe 5M with no pattern tags and no
recorded ML probability. -/
def breakevenTrade : TradeRecord :=
  { result := .BREAKEVEN, timeframe := some .m5, smartMoneyPatterns := [], mlProbability := 0 }

section RLLemmas

lemma clampTF_mem (x : ℚ) : 1 / 2 ≤ clampTF x ∧ clampTF x ≤ 3 / 2 := by
  unfold clampTF
  constructor
  · exact le_max_left _ _
  · exact max_le (by norm_num) (min_le_left _ _)

lemma clampTF_eq_self {x : ℚ} (h1 : 1 / 2 ≤ x) (h2 : x ≤ 3 / 2) : clampTF x = x := by
  unfold clampTF
  rw [min_eq_right h2, max_eq_right h1]

lemma clampModel_eq_self {x : ℚ} (h1 : 1 / 10 ≤ x) (h2 : x ≤ 3 / 5) : clampModel x = x := by
  unfold clampModel
  rw [min_eq_right h2, max_eq_right h1]

/-- The strengthened learner invariant: timeframe and pattern weights
within their clamp bounds, and the three model weights exactly at their
default values. -/
def RLInv (s : RLState) : Prop :=
  (∀ tf, 1 / 2 ≤ s.timeframeWeights tf ∧ s.timeframeWeights tf ≤ 3 / 2) ∧
  (∀ p, 1 / 2 ≤ s.patternWeights p ∧ s.patternWeights p ≤ 3 / 2) ∧
  s.randomForest = 3 / 10 ∧ s.gradientBoosting = 7 / 20 ∧ s.lstm = 7 / 20

lemma timeframeStep_inv {s : RLState} (r : ℚ) (otf : Option TF) (h : RLInv s) :
    RLInv (timeframeStep r otf s) := by
  obtain ⟨htf, hp, hm⟩ := h
  cases otf with
  | none => exact ⟨htf, hp, hm⟩
  | some tf =>
      refine ⟨fun tf' => ?_, hp, hm⟩
      by_cases hEq : tf' = tf
      · subst hEq
        simp only [timeframeStep, Function.update_same]
        exact clampTF_mem _
      · simpa only [timeframeStep, Function.update_noteq hEq] using htf tf'

lemma patternStep_inv {s : RLState} (r : ℚ) (p : Pattern) (h : RLInv s) :
    RLInv (patternStep r s p) := by
  obtain ⟨htf, hp, hm⟩ := h
  refine ⟨htf, fun p' => ?_, hm⟩
  by_cases hEq : p' = p
  · subst hEq
    simp only [patternStep, Function.update_same]
    exact clampTF_mem _
  · simpa only [patternStep, Function.update_noteq hEq] using hp p'

lemma patternFold_inv {s : RLState} (r : ℚ) (ps : List Pattern) (h : RLInv s) :
    RLInv (ps.foldl (patternStep r) s) := by
  induction ps generalizing s with
  | nil => exact h
  | cons p ps ih => exact ih (patternStep_inv r p h)

lemma modelStep_inv {s : RLState} {r prob : ℚ}
    (hr : r = 1 ∨ r = -1) (h0 : 0 ≤ prob) (h100 : prob ≤ 100) (h : RLInv s) :
    RLInv (modelStep r prob s) := by
  obtain ⟨htf, hp, hrf, hgb, hls⟩ := h
  unfold modelStep
  by_cases hz : prob ≠ 0
  · simp only [hz, if_pos, ne_eq, not_false_eq_true]
    set a : ℚ := r * learningRate * (prob / 100) with ha
    have haBounds : -(1 / 20) ≤ a ∧ a ≤ 1 / 20 := by
      rcases hr with h1 | h1 <;>
        (constructor <;> (rw [ha, h1]; unfold learningRate; nlinarith))
    obtain ⟨haLo, haHi⟩ := haBounds
    have hrf' : clampModel (s.randomForest + a * s.randomForest) = 3 / 10 * (1 + a) := by
      rw [hrf]
      have : (3 : ℚ) / 10 + a * (3 / 10) = 3 / 10 * (1 + a) := by ring
      rw [this]
      exact clampModel_eq_self (by nlinarith) (by nlinarith)
    have hgb' : clampModel (s.gradientBoosting + a * s.gradientBoosting) = 7 / 20 * (1 + a) := by
      rw [hgb]
      have : (7 : ℚ) / 20 + a * (7 / 20) = 7 / 20 * (1 + a) := by ring
      rw [this]
      exact clampModel_eq_self (by nlinarith) (by nlinarith)
    have hls' : clampModel (s.lstm + a * s.lstm) = 7 / 20 * (1 + a) := by
      rw [hls]
      have : (7 : ℚ) / 20 + a * (7 / 20) = 7 / 20 * (1 + a) := by ring
      rw [this]
      exact clampModel_eq_self (by nlinarith) (by nlinarith)
    have hne : (1 : ℚ) + a ≠ 0 := by nlinarith
    have htot : (3 : ℚ) / 10 * (1 + a) + 7 / 20 * (1 + a) + 7 / 20 * (1 + a) = 1 + a := by
      ring
    refine ⟨htf, hp, ?_, ?_, ?_⟩ <;>
      · simp only [normalizeModelWeights, hrf', hgb', hls']
        rw [htot, mul_div_assoc, div_self hne, mul_one]
  · simp only [hz, if_neg, not_not, not_true_eq_false, if_false]
    exact ⟨htf, hp, hrf, hgb, hls⟩

lemma learnFromTrade_inv {s : RLState} {t : TradeRecord}
    (h0 : 0 ≤ t.mlProbability) (h100 : t.mlProbability ≤ 100) (h : RLInv s) :
    RLInv (learnFromTrade s t) := by
  unfold learnFromTrade
  by_cases hOpen : t.result = .OPEN
  · simpa [hOpen] using h
  · simp only [hOpen, if_neg, not_false_eq_true]
    refine modelStep_inv ?_ h0 h100 (patternFold_inv _ _ (timeframeStep_inv _ _ h))
    by_cases hw : t.result = .WIN <;> simp [hw]

lemma defaultRLState_inv : RLInv defaultRLState := by
  refine ⟨fun _ => ?_, fun _ => ?_, rfl, rfl, rfl⟩ <;>
    simp [defaultRLState] <;> norm_num

end RLLemmas

/-- C2: For every sequence of trade outcomes applied through
`learnFromTrade` starting from the default weight state (each with a
recorded ML probability in [0, 100], per the spec's data model for the
technical estimate), every timeframe weight and every pattern weight
stays within [0.5, 1.5], every model weight stays within [0.1, 0.6], and
the three model weights sum exactly to 1.  Since this holds for every
sequence, it holds after each update of any longer sequence. -/
theorem learnAll_weights_bounded (trades : List TradeRecord)
    (h : ∀ t ∈ trades, 0 ≤ t.mlProbability ∧ t.mlProbability ≤ 100) :
    WeightsBounded (learnAll defaultRLState trades) := by
  have hInv : ∀ (ts : List TradeRecord) (s : RLState),
      (∀ t ∈ ts, 0 ≤ t.mlProbability ∧ t.mlProbability ≤ 100) →
      RLInv s → RLInv (learnAll s ts) := by
    intro ts
    induction ts with
    | nil => intro s _ hs; exact hs
    | cons t ts ih =>
        intro s hts hs
        have ht := hts t (List.mem_cons_self t ts)
        exact ih _ (fun u hu => hts u (List.mem_cons_of_mem t hu))
          (learnFromTrade_inv ht.1 ht.2 hs)
  obtain ⟨htf, hp, hrf, hgb, hls⟩ := hInv trades defaultRLState h defaultRLState_inv
  exact ⟨htf, hp, by rw [hrf]; norm_num, by rw [hgb]; norm_num,
    by rw [hls]; norm_num, by rw [hrf, hgb, hls]; norm_num⟩

/-- Witness for C2 at a concrete input: one WIN trade on 5M citing a
bullish order block with recorded ML probability 80. -/
theorem learnAll_weights_bounded_witness :
    WeightsBounded (learnAll defaultRLState
      [{ result := .WIN, timeframe := some .m5,
         smartMoneyPatterns := [.bullishOB], mlProbability := 80 }]) :=
  learnAll_weights_bounded _ (by intro t ht; simp at ht; rw [ht]; norm_num)

/-- C1 counterexample: learning from a BREAKEVEN trade is NOT a no-op.
From the default state, a BREAKEVEN outcome on timeframe 5M moves that
timeframe's weight from 1.0 to 0.95 — exactly the LOSS adjustment
(reward −1), contradicting "reward 0, no-op" for BREAKEVEN. -/
theorem breakeven_not_noop :
    (learnFromTrade defaultRLState breakevenTrade).timeframeWeights TF.m5 = 19 / 20 ∧
    defaultRLState.timeframeWeights TF.m5 = 1 := by
  constructor
  · simp [learnFromTrade, breakevenTrade, modelStep, timeframeStep, defaultRLState,
      clampTF, learningRate]
    norm_num
  · rfl

/-- C1 amended: `learnFromTrade` is a no-op exactly while the result is
OPEN; on WIN the reward is +1, and on every other closed result —
LOSS and BREAKEVEN alike — the reward is −1.  In particular a BREAKEVEN
trade adjusts all weights exactly as the same trade with result LOSS
would (it is not a "no learning signal" case). -/
theorem learnFromTrade_amended (s : RLState) (t : TradeRecord) :
    (t.result = .OPEN → learnFromTrade s t = s) ∧
    (t.result = .BREAKEVEN →
      learnFromTrade s t = learnFromTrade s { t with result := .LOSS }) ∧
    (∀ tf, t.timeframe = some tf → t.result = .WIN →
      (learnFromTrade s t).timeframeWeights tf =
        clampTF (s.timeframeWeights tf + learningRate)) := by
  refine ⟨fun h => by simp [learnFromTrade, h], fun h => by simp [learnFromTrade, h], ?_⟩
  intro tf htf hwin
  have hne : t.result ≠ .OPEN := by rw [hwin]; intro h; cases h
  have hW : ((if t.result = .WIN then (1 : ℚ) else -1)) = 1 := by simp [hwin]
  simp only [learnFromTrade, hne, if_neg, not_false_eq_true, hW, htf]
  have hModel : ∀ (r p : ℚ) (st : RLState),
      (modelStep r p st).timeframeWeights = st.timeframeWeights := by
    intro r p st
    unfold modelStep
    by_cases hz : p ≠ 0 <;> simp [hz, normalizeModelWeights]
  have hFold : ∀ (r : ℚ) (ps : List Pattern) (st : RLState),
      (ps.foldl (patternStep r) st).timeframeWeights = st.timeframeWeights := by
    intro r ps
    induction ps with
    | nil => intro st; rfl
    | cons p ps ih => intro st; rw [List.foldl_cons, ih]; rfl
  rw [hModel, hFold]
  simp [timeframeStep, one_mul]

/-- Witness for C1's amended theorem: concrete applications of all three
clauses — OPEN no-op, BREAKEVEN ≡ LOSS, and the WIN update on 5M. -/
theorem learnFromTrade_amended_witness :
    (learnFromTrade defaultRLState
        { result := .OPEN, timeframe := some .m5, smartMoneyPatterns := [],
          mlProbability := 50 } = defaultRLState) ∧
    (learnFromTrade defaultRLState breakevenTrade =
      learnFromTrade defaultRLState { breakevenTrade with result := .LOSS }) ∧
    (learnFromTrade defaultRLState
        { result := .WIN, timeframe := some .m5, smartMoneyPatterns := [],
          mlProbability := 0 }).timeframeWeights TF.m5 =
      clampTF (defaultRLState.timeframeWeights TF.m5 + learningRate) :=
  ⟨(learnFromTrade_amended defaultRLState _).1 rfl,
   (learnFromTrade_amended defaultRLState breakevenTrade).2.1 rfl,
   (learnFromTrade_amended defaultRLState _).2.2 TF.m5 rfl rfl⟩

/-! ## Market Structure Engine (`src/src/ai/smartMoneyEngine.js`) -/

/-- A candle of the OHLCV series (`{timestamp, open, high, low, close,
volume}`). -/
structure Candle where
  timestamp : ℤ
  «open» : ℚ
  high : ℚ
  low : ℚ
  close : ℚ
  volume : ℚ
deriving DecidableEq, Repr

instance : Inhabited Candle := ⟨⟨0, 0, 0, 0, 0, 0⟩⟩

/-- A swing point as produced by `identifySwingPoints`
(`{ index: i, price: candles[i].high/low }`). -/
structure SwingPoint where
  index : ℕ
  price : ℚ
deriving DecidableEq, Repr

/-- The `{ highs, lows }` return value of `identifySwingPoints`. -/
structure SwingPoints where
  highs : List SwingPoint
  lows : List SwingPoint
deriving DecidableEq, Repr

/-- `isSwingHigh(candles, index, lookback)` (`smartMoneyEngine.js` lines
189-198): scans `i` from `index - lookback` up to `index + lookback - 1`
(the JS loop condition is `i < index + lookback`), skipping `index`
itself, and fails as soon as some `candles[i].high >= candles[index].high`.
At every call site `index` ranges over `[lookback, length - lookback)`, so
every access is in bounds; out-of-range reads are modelled by a default
candle. -/
def isSwingHigh (candles : List Candle) (index lookback : ℕ) : Bool :=
  (List.range (2 * lookback)).all fun k =>
    (index - lookback + k == index) ||
      decide ((candles.getD (index - lookback + k) default).high <
        (candles.getD index default).high)

/-- `isSwingLow(candles, index, lookback)` (lines 200-209): the mirror of
`isSwingHigh`, failing as soon as some `candles[i].low <= candles[index].low`
for `i` in `[index - lookback, index + lookback - 1]`, `i ≠ index`. -/
def isSwingLow (candles : List Candle) (index lookback : ℕ) : Bool :=
  (List.range (2 * lookback)).all fun k =>
    (index - lookback + k == index) ||
      decide ((candles.getD index default).low <
        (candles.getD (index - lookback + k) default).low)

/-- `identifySwingPoints(candles, lookback = 5)` (lines 169-187): for
`i` from `lookback` while `i < candles.length - lookback`, pushes
`{index: i, price: candles[i].high}` onto `highs` when `isSwingHigh`, and
`{index: i, price: candles[i].low}` onto `lows` when `isSwingLow`. -/
def identifySwingPoints (candles : List Candle) (lookback : ℕ) : SwingPoints :=
  { highs := (List.range candles.length).filterMap fun i =>
      if lookback ≤ i ∧ i < candles.length - lookback ∧ isSwingHigh candles i lookback = true
      then some ⟨i, (candles.getD i default).high⟩ else none
    lows := (List.range candles.length).filterMap fun i =>
      if lookback ≤ i ∧ i < candles.length - lookback ∧ isSwingLow candles i lookback = true
      then some ⟨i, (candles.getD i default).low⟩ else none }

/-- The swing-high condition in the SPEC's words (for comparison with the
code): the high at `i` strictly exceeds the high of every other existing
candle in the symmetric window `[i - lookback, i + lookback]`. -/
def swingHighSpec (candles : List Candle) (i lookback : ℕ) : Prop :=
  ∀ j < candles.length, i - lookback ≤ j → j ≤ i + lookback → j ≠ i →
    (candles.getD j default).high < (candles.getD i default).high

/-- Three candles with highs 0, 5, 5 (other fields unused by swing
detection). -/
def swingCexCandles : List Candle :=
  [⟨0, 0, 0, 0, 0, 0⟩, ⟨1, 0, 5, 0, 0, 0⟩, ⟨2, 0, 5, 0, 0, 0⟩]

/-- The four timeframes in analysis order (`['4H','1H','15M','5M']`). -/
def tfOrder : List TF := [.h4, .h1, .m15, .m5]

/-- The values `determineTrend` can return
(`'BULLISH' | 'BEARISH' | 'NEUTRAL'`). -/
inductive Trend
  | BULLISH
  | BEARISH
  | NEUTRAL
deriving DecidableEq, Repr

/-- The direction strings appearing in bias objects and in the decision
engine's comparisons: the four values `determineOverallBias` can produce
plus the `'BUY'`/`'SELL'` literals used by the fundamental engine and by
`checkFundamentalAlignment`. -/
inductive Direction
  | BULLISH
  | BEARISH
  | NEUTRAL
  | CONFLICTED
  | BUY
  | SELL
deriving DecidableEq, Repr

/-- A trend string viewed as a direction string. -/
def Trend.toDirection : Trend → Direction
  | .BULLISH => .BULLISH
  | .BEARISH => .BEARISH
  | .NEUTRAL => .NEUTRAL

/-- The `{direction, confidence}` part of the object returned by
`determineOverallBias` (the `description` string is not modelled). -/
structure OverallBias where
  direction : Direction
  confidence : ℚ
deriving DecidableEq, Repr

/-- `determineOverallBias(tf4H, tf1H)` (lines 850-889).  The two analyses
are modelled by their `trend` fields; a missing analysis (JS `undefined`,
making the function return `null`) by `none`. -/
def determineOverallBias (bias4H bias1H : Option Trend) : Option OverallBias :=
  match bias4H, bias1H with
  | some b4, some b1 =>
      if b4 = b1 ∧ b4 ≠ .NEUTRAL then some ⟨b4.toDirection, 95⟩
      else if b4 ≠ .NEUTRAL ∧ b1 = .NEUTRAL then some ⟨b4.toDirection, 75⟩
      else if b4 ≠ b1 ∧ b4 ≠ .NEUTRAL ∧ b1 ≠ .NEUTRAL then some ⟨.CONFLICTED, 30⟩
      else some ⟨.NEUTRAL, 50⟩
  | _, _ => none

/-- The `{aligned, direction, confidence}` object returned by
`checkAlignment`. -/
structure Alignment where
  aligned : Bool
  direction : Direction
  confidence : ℚ
deriving DecidableEq, Repr

/-- The `trends` array built at the top of `checkAlignment`: the trend of
each analyzed (present) timeframe, in the engine's timeframe order. -/
def analyzedTrends (timeframes : TF → Option Trend) : List Trend :=
  tfOrder.filterMap timeframes

/-- The body of `checkAlignment` after the `trends` array is built
(lines 903-945): unanimity checks, then majority vote with confidence
`count / trends.length * 100`, else NEUTRAL at 50. -/
def alignmentOfTrends (trends : List Trend) : Alignment :=
  if trends.all (· == Trend.BULLISH) then ⟨true, .BULLISH, 100⟩
  else if trends.all (· == Trend.BEARISH) then ⟨true, .BEARISH, 100⟩
  else if (trends.filter (· == Trend.BEARISH)).length <
      (trends.filter (· == Trend.BULLISH)).length then
    ⟨false, .BULLISH,
      ((trends.filter (· == Trend.BULLISH)).length : ℚ) / (trends.length : ℚ) * 100⟩
  else if (trends.filter (· == Trend.BULLISH)).length <
      (trends.filter (· == Trend.BEARISH)).length then
    ⟨false, .BEARISH,
      ((trends.filter (· == Trend.BEARISH)).length : ℚ) / (trends.length : ℚ) * 100⟩
  else ⟨false, .NEUTRAL, 50⟩

/-- `checkAlignment(timeframes)` (lines 894-946). -/
def checkAlignment (timeframes : TF → Option Trend) : Alignment :=
  alignmentOfTrends (analyzedTrends timeframes)

section SwingLemmas

lemma isSwingHigh_iff {candles : List Candle} {index lookback : ℕ} (h : lookback ≤ index) :
    isSwingHigh candles index lookback = true ↔
      ∀ j, index - lookback ≤ j → j < index + lookback → j ≠ index →
        (candles.getD j default).high < (candles.getD index default).high := by
  unfold isSwingHigh
  rw [List.all_eq_true]
  constructor
  · intro hAll j hj1 hj2 hj3
    have hk : j - (index - lookback) < 2 * lookback := by omega
    have hthis := hAll _ (List.mem_range.mpr hk)
    have hidx : index - lookback + (j - (index - lookback)) = j := by omega
    rw [hidx] at hthis
    rcases (Bool.or_eq_true _ _).mp hthis with hcase | hcase
    · exact absurd (beq_iff_eq.mp hcase) hj3
    · exact of_decide_eq_true hcase
  · intro hAll k hk
    rw [List.mem_range] at hk
    by_cases hEq : index - lookback + k = index
    · exact (Bool.or_eq_true _ _).mpr (Or.inl (beq_iff_eq.mpr hEq))
    · exact (Bool.or_eq_true _ _).mpr
        (Or.inr (decide_eq_true (hAll _ (Nat.le_add_right _ _) (by omega) hEq)))

lemma isSwingLow_iff {candles : List Candle} {index lookback : ℕ} (h : lookback ≤ index) :
    isSwingLow candles index lookback = true ↔
      ∀ j, index - lookback ≤ j → j < index + lookback → j ≠ index →
        (candles.getD index default).low < (candles.getD j default).low := by
  unfold isSwingLow
  rw [List.all_eq_true]
  constructor
  · intro hAll j hj1 hj2 hj3
    have hk : j - (index - lookback) < 2 * lookback := by omega
    have hthis := hAll _ (List.mem_range.mpr hk)
    have hidx : index - lookback + (j - (index - lookback)) = j := by omega
    rw [hidx] at hthis
    rcases (Bool.or_eq_true _ _).mp hthis with hcase | hcase
    · exact absurd (beq_iff_eq.mp hcase) hj3
    · exact of_decide_eq_true hcase
  · intro hAll k hk
    rw [List.mem_range] at hk
    by_cases hEq : index - lookback + k = index
    · exact (Bool.or_eq_true _ _).mpr (Or.inl (beq_iff_eq.mpr hEq))
    · exact (Bool.or_eq_true _ _).mpr
        (Or.inr (decide_eq_true (hAll _ (Nat.le_add_right _ _) (by omega) hEq)))

end SwingLemmas

/-- C5: For every candle sequence shorter than `2·lookback + 1`,
`identifySwingPoints` returns empty swing-high and swing-low lists (the
detector is a total function — there is no exceptional path). -/
theorem identifySwingPoints_short (candles : List Candle) (lookback : ℕ)
    (h : candles.length < 2 * lookback + 1) :
    identifySwingPoints candles lookback = ⟨[], []⟩ := by
  unfold identifySwingPoints
  have hHighs : ∀ i ∈ List.range candles.length,
      (if lookback ≤ i ∧ i < candles.length - lookback ∧
          isSwingHigh candles i lookback = true
       then some (⟨i, (candles.getD i default).high⟩ : SwingPoint) else none) = none := by
    intro i _
    rw [if_neg]
    rintro ⟨h1, h2, -⟩
    omega
  have hLows : ∀ i ∈ List.range candles.length,
      (if lookback ≤ i ∧ i < candles.length - lookback ∧
          isSwingLow candles i lookback = true
       then some (⟨i, (candles.getD i default).low⟩ : SwingPoint) else none) = none := by
    intro i _
    rw [if_neg]
    rintro ⟨h1, h2, -⟩
    omega
  rw [List.filterMap_eq_nil_iff.mpr hHighs, List.filterMap_eq_nil_iff.mpr hLows]

/-- Witness for C5: three candles with lookback 5 yield no swing points. -/
theorem identifySwingPoints_short_witness :
    swingCexCandles.length < 2 * 5 + 1 ∧
    identifySwingPoints swingCexCandles 5 = ⟨[], []⟩ :=
  ⟨by decide, identifySwingPoints_short swingCexCandles 5 (by decide)⟩

/-- C4 counterexample: with highs 0, 5, 5 and lookback 1, the code
reports index 1 as a swing high (the JS scan stops at
`index + lookback - 1` and never examines candle 2), although candle 2
inside the symmetric window `[0, 2]` has an equal high, so the spec's
symmetric strict rule rejects it. -/
theorem swingHigh_window_cex :
    (identifySwingPoints swingCexCandles 1).highs = [⟨1, 5⟩] ∧
    ¬ swingHighSpec swingCexCandles 1 1 := by
  constructor
  · decide
  · intro hspec
    have := hspec 2 (by decide) (by decide) (by decide) (by decide)
    norm_num [swingCexCandles] at this

/-- C4 amended: `identifySwingPoints` reports index `i` as a swing high
iff `lookback ≤ i`, `i + lookback < candles.length`, and the high at `i`
strictly exceeds the high of every other candle in the HALF-OPEN window
`[i − lookback, i + lookback − 1]` — the candle at offset `+lookback` is
never examined; symmetric rule for swing lows. -/
theorem identifySwingPoints_amended (candles : List Candle) (lookback : ℕ) (p : SwingPoint) :
    (p ∈ (identifySwingPoints candles lookback).highs ↔
      lookback ≤ p.index ∧ p.index + lookback < candles.length ∧
      p.price = (candles.getD p.index default).high ∧
      ∀ j, p.index - lookback ≤ j → j < p.index + lookback → j ≠ p.index →
        (candles.getD j default).high < (candles.getD p.index default).high) ∧
    (p ∈ (identifySwingPoints candles lookback).lows ↔
      lookback ≤ p.index ∧ p.index + lookback < candles.length ∧
      p.price = (candles.getD p.index default).low ∧
      ∀ j, p.index - lookback ≤ j → j < p.index + lookback → j ≠ p.index →
        (candles.getD p.index default).low < (candles.getD j default).low) := by
  constructor
  · show p ∈ (List.range candles.length).filterMap _ ↔ _
    rw [List.mem_filterMap]
    constructor
    · rintro ⟨i, hmem, hf⟩
      rw [List.mem_range] at hmem
      by_cases hc : lookback ≤ i ∧ i < candles.length - lookback ∧
          isSwingHigh candles i lookback = true
      · rw [if_pos hc] at hf
        obtain ⟨h1, h2, h3⟩ := hc
        obtain ⟨hidx, hprice⟩ : p.index = i ∧ p.price = (candles.getD i default).high := by
          cases hf
          exact ⟨rfl, rfl⟩
        rw [hidx, hprice]
        exact ⟨h1, by omega, rfl, (isSwingHigh_iff h1).mp h3⟩
      · rw [if_neg hc] at hf
        exact absurd hf (by simp)
    · rintro ⟨h1, h2, h3, h4⟩
      refine ⟨p.index, List.mem_range.mpr (by omega), ?_⟩
      rw [if_pos ⟨h1, by omega, (isSwingHigh_iff h1).mpr h4⟩]
      cases p
      simp only at h3
      rw [h3]
  · show p ∈ (List.range candles.length).filterMap _ ↔ _
    rw [List.mem_filterMap]
    constructor
    · rintro ⟨i, hmem, hf⟩
      rw [List.mem_range] at hmem
      by_cases hc : lookback ≤ i ∧ i < candles.length - lookback ∧
          isSwingLow candles i lookback = true
      · rw [if_pos hc] at hf
        obtain ⟨h1, h2, h3⟩ := hc
        obtain ⟨hidx, hprice⟩ : p.index = i ∧ p.price = (candles.getD i default).low := by
          cases hf
          exact ⟨rfl, rfl⟩
        rw [hidx, hprice]
        exact ⟨h1, by omega, rfl, (isSwingLow_iff h1).mp h3⟩
      · rw [if_neg hc] at hf
        exact absurd hf (by simp)
    · rintro ⟨h1, h2, h3, h4⟩
      refine ⟨p.index, List.mem_range.mpr (by omega), ?_⟩
      rw [if_pos ⟨h1, by omega, (isSwingLow_iff h1).mpr h4⟩]
      cases p
      simp only at h3
      rw [h3]

/-- Witness for C4's amended theorem: its right-to-left direction applied
at the counterexample input (index 1 qualifies under the half-open
window rule). -/
theorem identifySwingPoints_amended_witness :
    (⟨1, 5⟩ : SwingPoint) ∈ (identifySwingPoints swingCexCandles 1).highs :=
  (identifySwingPoints_amended swingCexCandles 1 ⟨1, 5⟩).1.mpr
    ⟨by decide, by decide, by decide, by
      intro j _ hj2 hj3
      have h2 : j < 2 := hj2
      have h3 : j ≠ 1 := hj3
      have h0 : j = 0 := by omega
      subst h0
      norm_num [swingCexCandles]⟩

/-- C6 counterexample: a NEUTRAL 4H with a BULLISH 1H yields
direction NEUTRAL at confidence 50 — not the non-neutral side at 75 as
the claim states for "exactly one of the two trends NEUTRAL, regardless
of which". -/
theorem determineOverallBias_neutral4H_cex :
    determineOverallBias (some .NEUTRAL) (some .BULLISH) =
      some ⟨Direction.NEUTRAL, 50⟩ ∧
    determineOverallBias (some .NEUTRAL) (some .BULLISH) ≠
      some ⟨Direction.BULLISH, 75⟩ := by
  decide

/-- C6 amended: equal non-neutral trends → that direction at 95;
4H non-neutral with 1H NEUTRAL → the 4H direction at 75; 4H NEUTRAL with
1H non-neutral → NEUTRAL at 50 (the 75-confidence case is NOT symmetric:
it fires only when the neutral side is 1H); conflicting non-neutral
trends → CONFLICTED at 30; both NEUTRAL → NEUTRAL at 50. -/
theorem determineOverallBias_amended (t4 t1 : Trend) :
    (t4 = t1 → t4 ≠ .NEUTRAL →
      determineOverallBias (some t4) (some t1) = some ⟨t4.toDirection, 95⟩) ∧
    (t4 ≠ .NEUTRAL → t1 = .NEUTRAL →
      determineOverallBias (some t4) (some t1) = some ⟨t4.toDirection, 75⟩) ∧
    (t4 = .NEUTRAL → t1 ≠ .NEUTRAL →
      determineOverallBias (some t4) (some t1) = some ⟨Direction.NEUTRAL, 50⟩) ∧
    (t4 ≠ t1 → t4 ≠ .NEUTRAL → t1 ≠ .NEUTRAL →
      determineOverallBias (some t4) (some t1) = some ⟨Direction.CONFLICTED, 30⟩) ∧
    (t4 = .NEUTRAL → t1 = .NEUTRAL →
      determineOverallBias (some t4) (some t1) = some ⟨Direction.NEUTRAL, 50⟩) := by
  cases t4 <;> cases t1 <;> decide

/-- Witness for C6's amended theorem: the aligned, neutral-4H and
conflicting cases at concrete trends. -/
theorem determineOverallBias_amended_witness :
    determineOverallBias (some .BULLISH) (some .BULLISH) =
      some ⟨Direction.BULLISH, 95⟩ ∧
    determineOverallBias (some .NEUTRAL) (some .BEARISH) =
      some ⟨Direction.NEUTRAL, 50⟩ ∧
    determineOverallBias (some .BULLISH) (some .BEARISH) =
      some ⟨Direction.CONFLICTED, 30⟩ :=
  ⟨(determineOverallBias_amended .BULLISH .BULLISH).1 rfl (by decide),
   (determineOverallBias_amended .NEUTRAL .BEARISH).2.2.1 rfl (by decide),
   (determineOverallBias_amended .BULLISH .BEARISH).2.2.2.1 (by decide) (by decide) (by decide)⟩

section AlignmentLemmas

lemma not_unanimous_of_branches {trends : List Trend}
    (hB : ¬ trends.all (· == Trend.BULLISH) = true)
    (hBe : ¬ trends.all (· == Trend.BEARISH) = true) :
    ¬ ∃ t0, t0 ≠ Trend.NEUTRAL ∧ ∀ t ∈ trends, t = t0 := by
  rintro ⟨t0, hn, hall⟩
  cases t0 with
  | BULLISH => exact hB (List.all_eq_true.mpr fun t ht => by rw [hall t ht]; rfl)
  | BEARISH => exact hBe (List.all_eq_true.mpr fun t ht => by rw [hall t ht]; rfl)
  | NEUTRAL => exact hn rfl

lemma filter_length_lt_of_not_all {trends : List Trend} {t0 : Trend}
    (h : ¬ trends.all (· == t0) = true) :
    (trends.filter (· == t0)).length < trends.length := by
  rcases Nat.lt_or_ge (trends.filter (· == t0)).length trends.length with hlt | hge
  · exact hlt
  · exfalso
    have hle := List.length_filter_le (· == t0) trends
    have heq : (trends.filter (· == t0)) = trends :=
      (List.filter_sublist trends).eq_of_length (le_antisymm hle hge)
    refine h (List.all_eq_true.mpr fun t ht => ?_)
    rw [← heq] at ht
    exact (List.mem_filter.mp ht).2

lemma majority_conf_lt_100 {c n : ℕ} (hc : c < n) :
    (c : ℚ) / (n : ℚ) * 100 < 100 := by
  have hn : (0 : ℚ) < n := by exact_mod_cast Nat.pos_of_ne_zero (by omega)
  have h1 : (c : ℚ) < (n : ℚ) := by exact_mod_cast hc
  have h2 : (c : ℚ) / (n : ℚ) < 1 := (div_lt_one hn).mpr h1
  nlinarith

lemma majority_conf_bounds {c n : ℕ} (h : c ≤ n) :
    0 ≤ (c : ℚ) / (n : ℚ) * 100 ∧ (c : ℚ) / (n : ℚ) * 100 ≤ 100 := by
  rcases Nat.eq_zero_or_pos n with hz | hpos
  · subst hz
    norm_num
  · have hn : (0 : ℚ) < n := by exact_mod_cast hpos
    have h1 : (c : ℚ) ≤ (n : ℚ) := by exact_mod_cast h
    have h2 : (c : ℚ) / (n : ℚ) ≤ 1 := (div_le_one hn).mpr h1
    have h3 : (0 : ℚ) ≤ (c : ℚ) / (n : ℚ) := by positivity
    constructor <;> nlinarith

end AlignmentLemmas

/-- C7: For every set of per-timeframe analyses (including the empty set
and sets with NEUTRAL trends), the confidence returned by
`checkAlignment` lies in [0, 100], and equals 100 exactly when every
analyzed timeframe carries one identical non-neutral trend (vacuously so
for the empty set, for which the code's `Array.every` yields the
unanimous-BULLISH branch). -/
theorem checkAlignment_confidence (timeframes : TF → Option Trend) :
    0 ≤ (checkAlignment timeframes).confidence ∧
    (checkAlignment timeframes).confidence ≤ 100 ∧
    ((checkAlignment timeframes).confidence = 100 ↔
      ∃ t0, t0 ≠ Trend.NEUTRAL ∧ ∀ t ∈ analyzedTrends timeframes, t = t0) := by
  have main : ∀ trends : List Trend,
      0 ≤ (alignmentOfTrends trends).confidence ∧
      (alignmentOfTrends trends).confidence ≤ 100 ∧
      ((alignmentOfTrends trends).confidence = 100 ↔
        ∃ t0, t0 ≠ Trend.NEUTRAL ∧ ∀ t ∈ trends, t = t0) := by
    intro trends
    unfold alignmentOfTrends
    by_cases hB : trends.all (· == Trend.BULLISH) = true
    · rw [if_pos hB]
      refine ⟨by norm_num, by norm_num, ?_⟩
      constructor
      · intro _
        exact ⟨.BULLISH, by decide, fun t ht => beq_iff_eq.mp (List.all_eq_true.mp hB t ht)⟩
      · intro _
        rfl
    · by_cases hBe : trends.all (· == Trend.BEARISH) = true
      · rw [if_neg hB, if_pos hBe]
        refine ⟨by norm_num, by norm_num, ?_⟩
        constructor
        · intro _
          exact ⟨.BEARISH, by decide, fun t ht => beq_iff_eq.mp (List.all_eq_true.mp hBe t ht)⟩
        · intro _
          rfl
      · have hNotEx := not_unanimous_of_branches hB hBe
        by_cases h1 : (trends.filter (· == Trend.BEARISH)).length <
            (trends.filter (· == Trend.BULLISH)).length
        · rw [if_neg hB, if_neg hBe, if_pos h1]
          have hlt := filter_length_lt_of_not_all hB
          obtain ⟨hb0, hb1⟩ := majority_conf_bounds hlt.le
          exact ⟨hb0, hb1,
            ⟨fun hconf => absurd hconf (ne_of_lt (majority_conf_lt_100 hlt)),
             fun hex => absurd hex hNotEx⟩⟩
        · by_cases h2 : (trends.filter (· == Trend.BULLISH)).length <
              (trends.filter (· == Trend.BEARISH)).length
          · rw [if_neg hB, if_neg hBe, if_neg h1, if_pos h2]
            have hlt := filter_length_lt_of_not_all hBe
            obtain ⟨hb0, hb1⟩ := majority_conf_bounds hlt.le
            exact ⟨hb0, hb1,
              ⟨fun hconf => absurd hconf (ne_of_lt (majority_conf_lt_100 hlt)),
               fun hex => absurd hex hNotEx⟩⟩
          · rw [if_neg hB, if_neg hBe, if_neg h1, if_neg h2]
            refine ⟨by norm_num, by norm_num, ?_⟩
            constructor
            · intro h
              norm_num at h
            · intro hex
              exact absurd hex hNotEx
  exact main (analyzedTrends timeframes)

/-! ## Order blocks and fair value gaps (`smartMoneyEngine.js`) -/

/-- `'BULLISH_OB' | 'BEARISH_OB'`. -/
inductive OBKind
  | BULLISH_OB
  | BEARISH_OB
deriving DecidableEq, Repr

/-- An order block as pushed by `detectOrderBlocks` (lines 281-332):
`{type, index, high, low, open, close, strength, mitigated, tested}`. -/
structure OrderBlock where
  type : OBKind
  index : ℕ
  high : ℚ
  low : ℚ
  «open» : ℚ
  close : ℚ
  strength : ℤ
  mitigated : Bool
  tested : Bool
deriving DecidableEq, Repr

/-- `'BULLISH_FVG' | 'BEARISH_FVG'`. -/
inductive FVGKind
  | BULLISH_FVG
  | BEARISH_FVG
deriving DecidableEq, Repr

/-- A fair value gap as pushed by `detectFairValueGaps` (lines 488-527):
`{type, index, top, bottom, size, filled, partiallyFilled}`. -/
structure FVG where
  type : FVGKind
  index : ℕ
  top : ℚ
  bottom : ℚ
  size : ℚ
  filled : Bool
  partiallyFilled : Bool
deriving DecidableEq, Repr

/-- The shared shape of the two mitigation/fill scans
(`checkOrderBlockMitigation` lines 337-367 and `checkFVGFill` lines
532-564): walk the candles after the structure's index; on the first
candle satisfying `enter`, set the first flag (tested / partiallyFilled);
if that candle also satisfies `kill`, set the second flag
(mitigated / filled) and stop.  Returns the pair (first flag, second
flag), the first flag starting from its current value. -/
def flagScan (enter kill : Candle → Bool) : Bool → List Candle → Bool × Bool
  | t, [] => (t, false)
  | t, c :: rest =>
      if enter c then
        if kill c then (true, true)
        else flagScan enter kill true rest
      else flagScan enter kill t rest

/-- The re-entry test of `checkOrderBlockMitigation`: for a bullish block
`candle.low <= ob.high && candle.low >= ob.low`, for a bearish block
`candle.high >= ob.low && candle.high <= ob.high`. -/
def obEnter (ob : OrderBlock) (c : Candle) : Bool :=
  match ob.type with
  | .BULLISH_OB => decide (c.low ≤ ob.high ∧ ob.low ≤ c.low)
  | .BEARISH_OB => decide (ob.low ≤ c.high ∧ c.high ≤ ob.high)

/-- The mitigation test of `checkOrderBlockMitigation`: close through the
opposite edge (`candle.close < ob.low` for bullish,
`candle.close > ob.high` for bearish). -/
def obKill (ob : OrderBlock) (c : Candle) : Bool :=
  match ob.type with
  | .BULLISH_OB => decide (c.close < ob.low)
  | .BEARISH_OB => decide (ob.high < c.close)

/-- `checkOrderBlockMitigation(candles, orderBlocks)`: each block is
scanned over the candles after its index; `tested`/`mitigated` only ever
flip to true. -/
def checkOrderBlockMitigation (candles : List Candle) (obs : List OrderBlock) :
    List OrderBlock :=
  obs.map fun ob =>
    let r := flagScan (obEnter ob) (obKill ob) ob.tested (candles.drop (ob.index + 1))
    { ob with tested := r.1, mitigated := ob.mitigated || r.2 }

/-- The detection step of `detectOrderBlocks` at index `i` of the loop
`for (i = 2; i < candles.length - 1; i++)`: a bullish order block is a
down-close candle whose successor closes up by more than 0.5% of its
open; mirror rule for bearish (the two conditions are mutually
exclusive). -/
def rawOrderBlockAt (candles : List Candle) (i : ℕ) : Option OrderBlock :=
  if 2 ≤ i ∧ i + 1 < candles.length then
    if (candles.getD i default).close < (candles.getD i default).«open» ∧
        (candles.getD (i + 1) default).«open» < (candles.getD (i + 1) default).close ∧
        1 / 200 < ((candles.getD (i + 1) default).close - (candles.getD (i + 1) default).«open») /
          (candles.getD (i + 1) default).«open» then
      some ⟨.BULLISH_OB, i, (candles.getD i default).high, (candles.getD i default).low,
        (candles.getD i default).«open», (candles.getD i default).close,
        round ((((candles.getD (i + 1) default).close - (candles.getD (i + 1) default).«open») /
          (candles.getD (i + 1) default).«open») * 100), false, false⟩
    else if (candles.getD i default).«open» < (candles.getD i default).close ∧
        (candles.getD (i + 1) default).close < (candles.getD (i + 1) default).«open» ∧
        1 / 200 < ((candles.getD (i + 1) default).«open» - (candles.getD (i + 1) default).close) /
          (candles.getD (i + 1) default).«open» then
      some ⟨.BEARISH_OB, i, (candles.getD i default).high, (candles.getD i default).low,
        (candles.getD i default).«open», (candles.getD i default).close,
        round ((((candles.getD (i + 1) default).«open» - (candles.getD (i + 1) default).close) /
          (candles.getD (i + 1) default).«open») * 100), false, false⟩
    else none
  else none

/-- `detectOrderBlocks(candles)`: detection pass followed by the
mitigation scan. -/
def detectOrderBlocks (candles : List Candle) : List OrderBlock :=
  checkOrderBlockMitigation candles
    ((List.range candles.length).filterMap (rawOrderBlockAt candles))

/-- The detection step of `detectFairValueGaps` at index `i` of the loop
`for (i = 2; i < candles.length; i++)`: a bullish FVG when
`candle1.high < candle3.low`, a bearish FVG when
`candle3.high < candle1.low` (both are pushed if both hold), recorded at
`index: i - 1`. -/
def rawFVGsAt (candles : List Candle) (i : ℕ) : List FVG :=
  if 2 ≤ i ∧ i < candles.length then
    (if (candles.getD (i - 2) default).high < (candles.getD i default).low then
      [⟨.BULLISH_FVG, i - 1, (candles.getD i default).low, (candles.getD (i - 2) default).high,
        (candles.getD i default).low - (candles.getD (i - 2) default).high, false, false⟩]
     else []) ++
    (if (candles.getD i default).high < (candles.getD (i - 2) default).low then
      [⟨.BEARISH_FVG, i - 1, (candles.getD (i - 2) default).low, (candles.getD i default).high,
        (candles.getD (i - 2) default).low - (candles.getD i default).high, false, false⟩]
     else [])
  else []

/-- The re-entry test of `checkFVGFill`: price intrudes into the gap
(`candle.low <= fvg.top && candle.low >= fvg.bottom` for bullish,
`candle.high >= fvg.bottom && candle.high <= fvg.top` for bearish). -/
def fvgEnter (f : FVG) (c : Candle) : Bool :=
  match f.type with
  | .BULLISH_FVG => decide (c.low ≤ f.top ∧ f.bottom ≤ c.low)
  | .BEARISH_FVG => decide (f.bottom ≤ c.high ∧ c.high ≤ f.top)

/-- The full-fill test of `checkFVGFill`: intrusion past the gap's
midpoint. -/
def fvgKill (f : FVG) (c : Candle) : Bool :=
  match f.type with
  | .BULLISH_FVG => decide (c.low ≤ (f.top + f.bottom) / 2)
  | .BEARISH_FVG => decide ((f.top + f.bottom) / 2 ≤ c.high)

/-- `checkFVGFill(candles, fvgs)`: each gap is scanned over the candles
after its index; `partiallyFilled`/`filled` only ever flip to true. -/
def checkFVGFill (candles : List Candle) (fvgs : List FVG) : List FVG :=
  fvgs.map fun f =>
    let r := flagScan (fvgEnter f) (fvgKill f) f.partiallyFilled (candles.drop (f.index + 1))
    { f with partiallyFilled := r.1, filled := f.filled || r.2 }

/-- `detectFairValueGaps(candles)`: detection pass followed by the fill
scan. -/
def detectFairValueGaps (candles : List Candle) : List FVG :=
  checkFVGFill candles ((List.range candles.length).flatMap (rawFVGsAt candles))

section FlagScanLemmas

lemma flagScan_append (enter kill : Candle → Bool) (t : Bool) (xs ys : List Candle) :
    flagScan enter kill t (xs ++ ys) =
      if (flagScan enter kill t xs).2 = true then flagScan enter kill t xs
      else flagScan enter kill (flagScan enter kill t xs).1 ys := by
  induction xs generalizing t with
  | nil => simp [flagScan]
  | cons c rest ih =>
      cases he : enter c
      · simp only [List.cons_append, flagScan, he, Bool.false_eq_true, if_false]
        exact ih t
      · cases hk : kill c
        · simp only [List.cons_append, flagScan, he, hk, if_true, Bool.false_eq_true, if_false]
          exact ih true
        · simp [List.cons_append, flagScan, he, hk]

lemma flagScan_fst_of_true (enter kill : Candle → Bool) (xs : List Candle) :
    (flagScan enter kill true xs).1 = true := by
  induction xs with
  | nil => rfl
  | cons c rest ih =>
      cases he : enter c <;> cases hk : kill c <;> simp [flagScan, he, hk, ih]

lemma flagScan_fst_mono (enter kill : Candle → Bool) (t : Bool) (xs ys : List Candle)
    (h : (flagScan enter kill t xs).1 = true) :
    (flagScan enter kill t (xs ++ ys)).1 = true := by
  rw [flagScan_append]
  by_cases hsnd : (flagScan enter kill t xs).2 = true
  · rw [if_pos hsnd]
    exact h
  · rw [if_neg hsnd, h]
    exact flagScan_fst_of_true enter kill ys

lemma flagScan_snd_mono (enter kill : Candle → Bool) (t : Bool) (xs ys : List Candle)
    (h : (flagScan enter kill t xs).2 = true) :
    (flagScan enter kill t (xs ++ ys)).2 = true := by
  rw [flagScan_append, if_pos h]
  exact h

lemma drop_append_of_le_length {α : Type _} {n : ℕ} {l1 l2 : List α} (h : n ≤ l1.length) :
    (l1 ++ l2).drop n = l1.drop n ++ l2 := by
  rw [List.drop_append_eq_append_drop, Nat.sub_eq_zero_of_le h, List.drop_zero]

lemma rawOrderBlockAt_bounds {candles : List Candle} {i : ℕ} {ob : OrderBlock}
    (h : rawOrderBlockAt candles i = some ob) :
    2 ≤ i ∧ i + 1 < candles.length ∧ ob.index = i := by
  unfold rawOrderBlockAt at h
  by_cases hc : 2 ≤ i ∧ i + 1 < candles.length
  · rw [if_pos hc] at h
    refine ⟨hc.1, hc.2, ?_⟩
    split_ifs at h
    · injection h with h'
      subst h'
      rfl
    · injection h with h'
      subst h'
      rfl
  · rw [if_neg hc] at h
    cases h

lemma rawOrderBlockAt_append {candles ext : List Candle} {i : ℕ} {ob : OrderBlock}
    (h : rawOrderBlockAt candles i = some ob) :
    rawOrderBlockAt (candles ++ ext) i = some ob := by
  obtain ⟨h2, hlen, -⟩ := rawOrderBlockAt_bounds h
  unfold rawOrderBlockAt at h ⊢
  rw [if_pos ⟨h2, hlen⟩] at h
  rw [if_pos ⟨h2, by rw [List.length_append]; omega⟩,
    List.getD_append candles ext default i (by omega),
    List.getD_append candles ext default (i + 1) hlen]
  exact h

lemma rawFVGsAt_bounds {candles : List Candle} {i : ℕ} {f : FVG}
    (h : f ∈ rawFVGsAt candles i) :
    2 ≤ i ∧ i < candles.length ∧ f.index = i - 1 := by
  unfold rawFVGsAt at h
  by_cases hc : 2 ≤ i ∧ i < candles.length
  · rw [if_pos hc] at h
    refine ⟨hc.1, hc.2, ?_⟩
    rw [List.mem_append] at h
    rcases h with h | h <;>
      · split_ifs at h <;> simp only [List.mem_singleton, List.not_mem_nil] at h
        subst h
        rfl
  · rw [if_neg hc] at h
    cases h

lemma rawFVGsAt_append {candles ext : List Candle} {i : ℕ} {f : FVG}
    (h : f ∈ rawFVGsAt candles i) :
    f ∈ rawFVGsAt (candles ++ ext) i := by
  obtain ⟨h2, hlen, -⟩ := rawFVGsAt_bounds h
  unfold rawFVGsAt at h ⊢
  rw [if_pos ⟨h2, hlen⟩] at h
  rw [if_pos ⟨h2, by rw [List.length_append]; omega⟩,
    List.getD_append candles ext default (i - 2) (by omega),
    List.getD_append candles ext default i hlen]
  exact h

end FlagScanLemmas

/-- C9: Order-block mitigation and FVG fill flags are monotonic in the
candle window.  Every order block detected on a window reappears on any
extension of that window at the same index with the same price fields,
and its `tested`/`mitigated` flags never flip back from true to false;
likewise every fair value gap reappears with `partiallyFilled`/`filled`
monotone. -/
theorem ob_fvg_flags_monotone (candles ext : List Candle) :
    (∀ ob ∈ detectOrderBlocks candles, ∃ ob' ∈ detectOrderBlocks (candles ++ ext),
      ob'.type = ob.type ∧ ob'.index = ob.index ∧ ob'.high = ob.high ∧
      ob'.low = ob.low ∧ ob'.«open» = ob.«open» ∧ ob'.close = ob.close ∧
      ob'.strength = ob.strength ∧
      (ob.tested = true → ob'.tested = true) ∧
      (ob.mitigated = true → ob'.mitigated = true)) ∧
    (∀ f ∈ detectFairValueGaps candles, ∃ f' ∈ detectFairValueGaps (candles ++ ext),
      f'.type = f.type ∧ f'.index = f.index ∧ f'.top = f.top ∧ f'.bottom = f.bottom ∧
      f'.size = f.size ∧
      (f.partiallyFilled = true → f'.partiallyFilled = true) ∧
      (f.filled = true → f'.filled = true)) := by
  constructor
  · intro ob hob
    unfold detectOrderBlocks checkOrderBlockMitigation at hob
    rw [List.mem_map] at hob
    obtain ⟨ob0, hmem, hupd⟩ := hob
    rw [List.mem_filterMap] at hmem
    obtain ⟨i, hi, hraw⟩ := hmem
    rw [List.mem_range] at hi
    obtain ⟨h2, hlen, hidx⟩ := rawOrderBlockAt_bounds hraw
    have hdrop : (candles ++ ext).drop (ob0.index + 1) =
        candles.drop (ob0.index + 1) ++ ext :=
      drop_append_of_le_length (by omega)
    refine ⟨{ ob0 with
        tested := (flagScan (obEnter ob0) (obKill ob0) ob0.tested
          ((candles ++ ext).drop (ob0.index + 1))).1
        mitigated := ob0.mitigated || (flagScan (obEnter ob0) (obKill ob0) ob0.tested
          ((candles ++ ext).drop (ob0.index + 1))).2 }, ?_, ?_⟩
    · unfold detectOrderBlocks checkOrderBlockMitigation
      rw [List.mem_map]
      refine ⟨ob0, List.mem_filterMap.mpr
        ⟨i, List.mem_range.mpr (by rw [List.length_append]; omega),
          rawOrderBlockAt_append hraw⟩, rfl⟩
    · rw [← hupd]
      refine ⟨rfl, rfl, rfl, rfl, rfl, rfl, rfl, ?_, ?_⟩
      · intro h
        have h' : (flagScan (obEnter ob0) (obKill ob0) ob0.tested
            (candles.drop (ob0.index + 1))).1 = true := h
        show (flagScan (obEnter ob0) (obKill ob0) ob0.tested
          ((candles ++ ext).drop (ob0.index + 1))).1 = true
        rw [hdrop]
        exact flagScan_fst_mono _ _ _ _ ext h'
      · intro h
        have h' : (ob0.mitigated || (flagScan (obEnter ob0) (obKill ob0) ob0.tested
            (candles.drop (ob0.index + 1))).2) = true := h
        show (ob0.mitigated || (flagScan (obEnter ob0) (obKill ob0) ob0.tested
          ((candles ++ ext).drop (ob0.index + 1))).2) = true
        rw [hdrop]
        rcases Bool.or_eq_true_iff.mp h' with hm | hm
        · exact Bool.or_eq_true_iff.mpr (Or.inl hm)
        · exact Bool.or_eq_true_iff.mpr (Or.inr (flagScan_snd_mono _ _ _ _ ext hm))
  · intro f hf
    unfold detectFairValueGaps checkFVGFill at hf
    rw [List.mem_map] at hf
    obtain ⟨f0, hmem, hupd⟩ := hf
    rw [List.mem_flatMap] at hmem
    obtain ⟨i, hi, hraw⟩ := hmem
    rw [List.mem_range] at hi
    obtain ⟨h2, hlen, hidx⟩ := rawFVGsAt_bounds hraw
    have hdrop : (candles ++ ext).drop (f0.index + 1) =
        candles.drop (f0.index + 1) ++ ext :=
      drop_append_of_le_length (by omega)
    refine ⟨{ f0 with
        partiallyFilled := (flagScan (fvgEnter f0) (fvgKill f0) f0.partiallyFilled
          ((candles ++ ext).drop (f0.index + 1))).1
        filled := f0.filled || (flagScan (fvgEnter f0) (fvgKill f0) f0.partiallyFilled
          ((candles ++ ext).drop (f0.index + 1))).2 }, ?_, ?_⟩
    · unfold detectFairValueGaps checkFVGFill
      rw [List.mem_map]
      refine ⟨f0, List.mem_flatMap.mpr
        ⟨i, List.mem_range.mpr (by rw [List.length_append]; omega),
          rawFVGsAt_append hraw⟩, rfl⟩
    · rw [← hupd]
      refine ⟨rfl, rfl, rfl, rfl, rfl, ?_, ?_⟩
      · intro h
        have h' : (flagScan (fvgEnter f0) (fvgKill f0) f0.partiallyFilled
            (candles.drop (f0.index + 1))).1 = true := h
        show (flagScan (fvgEnter f0) (fvgKill f0) f0.partiallyFilled
          ((candles ++ ext).drop (f0.index + 1))).1 = true
        rw [hdrop]
        exact flagScan_fst_mono _ _ _ _ ext h'
      · intro h
        have h' : (f0.filled || (flagScan (fvgEnter f0) (fvgKill f0) f0.partiallyFilled
            (candles.drop (f0.index + 1))).2) = true := h
        show (f0.filled || (flagScan (fvgEnter f0) (fvgKill f0) f0.partiallyFilled
          ((candles ++ ext).drop (f0.index + 1))).2) = true
        rw [hdrop]
        rcases Bool.or_eq_true_iff.mp h' with hm | hm
        · exact Bool.or_eq_true_iff.mpr (Or.inl hm)
        · exact Bool.or_eq_true_iff.mpr (Or.inr (flagScan_snd_mono _ _ _ _ ext hm))

/-- Five candles carrying a bullish order block at index 2 (down candle
followed by a 1% up-move) that candle 4 tests and mitigates, and a
bullish FVG at index 1 that candle 2 partially fills. -/
def obCexCandles : List Candle :=
  [⟨0, 1, 1, 1, 1, 0⟩, ⟨1, 1, 1, 1, 1, 0⟩, ⟨2, 100, 101, 98, 99, 0⟩,
   ⟨3, 100, 102, 99, 101, 0⟩, ⟨4, 99, 100, 197 / 2, 97, 0⟩]

/-- One further candle extending `obCexCandles`. -/
def obCexExt : List Candle := [⟨5, 97, 98, 40, 45, 0⟩]

/-- Witness for C9: the mitigated/tested order block of `obCexCandles`
and its partially-filled FVG keep their flags after the window is
extended by `obCexExt`. -/
theorem ob_fvg_flags_monotone_witness :
    (∃ ob' ∈ detectOrderBlocks (obCexCandles ++ obCexExt),
      ob'.type = OBKind.BULLISH_OB ∧ ob'.index = 2 ∧ ob'.high = 101 ∧ ob'.low = 98 ∧
      ob'.«open» = 100 ∧ ob'.close = 99 ∧ ob'.strength = 1 ∧
      ob'.tested = true ∧ ob'.mitigated = true) ∧
    (∃ f' ∈ detectFairValueGaps (obCexCandles ++ obCexExt),
      f'.type = FVGKind.BULLISH_FVG ∧ f'.index = 1 ∧ f'.partiallyFilled = true) := by
  have hOB : (⟨.BULLISH_OB, 2, 101, 98, 100, 99, 1, true, true⟩ : OrderBlock) ∈
      detectOrderBlocks obCexCandles := by
    unfold detectOrderBlocks checkOrderBlockMitigation
    rw [List.mem_map]
    refine ⟨⟨.BULLISH_OB, 2, 101, 98, 100, 99, 1, false, false⟩, ?_, ?_⟩
    · rw [List.mem_filterMap]
      refine ⟨2, List.mem_range.mpr (by norm_num [obCexCandles]), ?_⟩
      norm_num [rawOrderBlockAt, obCexCandles, round_eq]
    · norm_num [obCexCandles, flagScan, obEnter, obKill]
  have hFVG : (⟨.BULLISH_FVG, 1, 98, 1, 97, false, true⟩ : FVG) ∈
      detectFairValueGaps obCexCandles := by
    unfold detectFairValueGaps checkFVGFill
    rw [List.mem_map]
    refine ⟨⟨.BULLISH_FVG, 1, 98, 1, 97, false, false⟩, ?_, ?_⟩
    · rw [List.mem_flatMap]
      refine ⟨2, List.mem_range.mpr (by norm_num [obCexCandles]), ?_⟩
      norm_num [rawFVGsAt, obCexCandles]
    · norm_num [obCexCandles, flagScan, fvgEnter, fvgKill]
  constructor
  · obtain ⟨ob', hm, h1, h2, h3, h4, h5, h6, h7, h8, h9⟩ :=
      (ob_fvg_flags_monotone obCexCandles obCexExt).1
        ⟨.BULLISH_OB, 2, 101, 98, 100, 99, 1, true, true⟩ hOB
    exact ⟨ob', hm, h1, h2, h3, h4, h5, h6, h7, h8 rfl, h9 rfl⟩
  · obtain ⟨f', hm, h1, h2, h3, h4, h5, h6, h7⟩ :=
      (ob_fvg_flags_monotone obCexCandles obCexExt).2
        ⟨.BULLISH_FVG, 1, 98, 1, 97, false, true⟩ hFVG
    exact ⟨f', hm, h1, h2, h6 rfl⟩

/-! ## Decision Fusion Engine (`src/backend/src/ai/decisionEngine.js`) -/

/-- A liquidity zone as read by the decision engine (only its `price` is
consumed, by `calculateTradeSetup`). -/
structure LiquidityZone where
  price : ℚ
deriving DecidableEq, Repr

/-- A liquidity sweep as read by the decision engine (the gates only test
`sweeps.length > 0`). -/
structure Sweep where
  price : ℚ
deriving DecidableEq, Repr

/-- The `liquidity` object of a per-timeframe analysis as read by the
decision engine: `above`, `below`, `sweeps`. -/
structure Liquidity where
  above : List LiquidityZone
  below : List LiquidityZone
  sweeps : List Sweep
deriving DecidableEq, Repr

/-- The fields of a per-timeframe Smart-Money analysis that
`processDecision` and its helpers read: `trend`, `orderBlocks`,
`breakOfStructure` (only its truthiness is used), `fairValueGaps`,
`liquidity`, `institutionalLevel` (only compared against `null`). -/
structure TFAnalysis where
  trend : Trend
  orderBlocks : List OrderBlock
  breakOfStructure : Bool
  fairValueGaps : List FVG
  liquidity : Liquidity
  institutionalLevel : Option ℚ
deriving DecidableEq, Repr

/-- The aggregator output consumed by `processDecision`: the
per-timeframe analyses (`none` for a timeframe without market data), the
overall bias (`null` modelled as `none`), and the alignment object. -/
structure SmartMoneyAnalysis where
  timeframes : TF → Option TFAnalysis
  overallBias : Option OverallBias
  alignment : Alignment

/-- The technical-ML opinion as read by `processDecision`
(`technical.confidence`, a number in [0, 100]). -/
structure Technical where
  confidence : ℚ
deriving DecidableEq, Repr

/-- `fundamental.fundamentalBias`: `{direction, confidence}`. -/
structure FundamentalBias where
  direction : Direction
  confidence : ℚ
deriving DecidableEq, Repr

/-- The fundamental opinion as read by the decision engine; a missing
`fundamentalBias` object is `none`. -/
structure Fundamental where
  fundamentalBias : Option FundamentalBias
deriving DecidableEq, Repr

/-- The correlation verdict (`correlation.allowTrade`). -/
structure Correlation where
  allowTrade : Bool
deriving DecidableEq, Repr

/-- The market data passed to `processDecision`: per-timeframe candle
windows, `none` for a key that is absent (JS `undefined`). -/
def MarketData := TF → Option (List Candle)

/-- The engine's thresholds (`this.thresholds`): `minMLProbability: 58`. -/
def minMLProbability : ℚ := 58

/-- `minRiskReward: 2.0`. -/
def minRiskReward : ℚ := 2

/-- `maxStopLossPercent: 2.2`. -/
def maxStopLossPercent : ℚ := 11 / 5

/-- `minConfluence: 3`. -/
def minConfluence : ℕ := 3

/-- `this.maxConsecutiveLosses = 3`. -/
def maxConsecutiveLosses : ℕ := 3

/-- The 11 boolean keys of the `criteria` object of `processDecision`, in
insertion order. -/
inductive CriterionName
  | tf4H_1H_aligned
  | tf15M_confirmation
  | tf5M_entry
  | smartMoneyConfirms
  | confluenceOk
  | mlProbabilityOk
  | fundamentalNotAgainst
  | notRanging
  | correlationAligned
  | stopLossValid
  | riskRewardOk
deriving DecidableEq, Repr

/-- The `criteria` object of `processDecision` (its 11 boolean values). -/
structure Criteria where
  tf4H_1H_aligned : Bool
  tf15M_confirmation : Bool
  tf5M_entry : Bool
  smartMoneyConfirms : Bool
  confluenceOk : Bool
  mlProbabilityOk : Bool
  fundamentalNotAgainst : Bool
  notRanging : Bool
  correlationAligned : Bool
  stopLossValid : Bool
  riskRewardOk : Bool
deriving DecidableEq, Repr

/-- `Object.values(criteria)` in insertion order. -/
def criteriaValues (c : Criteria) : List Bool :=
  [c.tf4H_1H_aligned, c.tf15M_confirmation, c.tf5M_entry, c.smartMoneyConfirms,
   c.confluenceOk, c.mlProbabilityOk, c.fundamentalNotAgainst, c.notRanging,
   c.correlationAligned, c.stopLossValid, c.riskRewardOk]

/-- `Object.keys(criteria).filter(key => criteria[key] === false)` — the
`failedCriteria` list of `generateRejectionDecision`. -/
def failedCriteriaOf (c : Criteria) : List CriterionName :=
  (if c.tf4H_1H_aligned then [] else [.tf4H_1H_aligned]) ++
  (if c.tf15M_confirmation then [] else [.tf15M_confirmation]) ++
  (if c.tf5M_entry then [] else [.tf5M_entry]) ++
  (if c.smartMoneyConfirms then [] else [.smartMoneyConfirms]) ++
  (if c.confluenceOk then [] else [.confluenceOk]) ++
  (if c.mlProbabilityOk then [] else [.mlProbabilityOk]) ++
  (if c.fundamentalNotAgainst then [] else [.fundamentalNotAgainst]) ++
  (if c.notRanging then [] else [.notRanging]) ++
  (if c.correlationAligned then [] else [.correlationAligned]) ++
  (if c.stopLossValid then [] else [.stopLossValid]) ++
  (if c.riskRewardOk then [] else [.riskRewardOk])

/-- The `failedChecks` list built before the mandatory-gate rejection
(lines 227-231), naming each failed mandatory check. -/
def mandatoryFailedChecks (c : Criteria) : List CriterionName :=
  (if c.confluenceOk then [] else [.confluenceOk]) ++
  (if c.mlProbabilityOk then [] else [.mlProbabilityOk]) ++
  (if c.smartMoneyConfirms then [] else [.smartMoneyConfirms]) ++
  (if c.notRanging then [] else [.notRanging])

/-- `passedMandatoryCount` (line 224): how many of the four mandatory
checks hold. -/
def mandatoryPassedCount (c : Criteria) : ℕ :=
  [c.confluenceOk, c.mlProbabilityOk, c.smartMoneyConfirms, c.notRanging].count true

/-- Whether a timeframe analysis has an unmitigated order block
(`tf?.orderBlocks?.some(ob => !ob.mitigated)`). -/
def hasActiveOB : Option TFAnalysis → Bool
  | some t => t.orderBlocks.any fun ob => !ob.mitigated
  | none => false

/-- Truthiness of `tf?.breakOfStructure`. -/
def hasBOSField : Option TFAnalysis → Bool
  | some t => t.breakOfStructure
  | none => false

/-- `tf?.liquidity?.sweeps?.length > 0`. -/
def hasSweepsField : Option TFAnalysis → Bool
  | some t => decide (t.liquidity.sweeps ≠ [])
  | none => false

/-- `tf?.fairValueGaps?.length > 0`. -/
def hasFVGsField : Option TFAnalysis → Bool
  | some t => decide (t.fairValueGaps ≠ [])
  | none => false

/-- `checkHigherTFAlignment(smartMoney)` (lines 282-300): requires both
4H and 1H analyses, at least one non-neutral trend, no conflicting
non-neutral trends, and an overall bias with confidence ≥ 55. -/
def checkHigherTFAlignment (sm : SmartMoneyAnalysis) : Bool :=
  match sm.timeframes .h4, sm.timeframes .h1 with
  | some tf4, some tf1 =>
      if tf4.trend = .NEUTRAL ∧ tf1.trend = .NEUTRAL then false
      else if tf4.trend ≠ .NEUTRAL ∧ tf1.trend ≠ .NEUTRAL ∧ tf4.trend ≠ tf1.trend then false
      else
        match sm.overallBias with
        | some b => decide (55 ≤ b.confidence)
        | none => false
  | _, _ => false

/-- `check15MConfirmation(smartMoney, technical)` (lines 305-316): needs
the 15M analysis and an overall-bias direction; a NEUTRAL 15M trend is
acceptable, otherwise the 15M trend must equal the overall direction. -/
def check15MConfirmation (sm : SmartMoneyAnalysis) : Bool :=
  match sm.timeframes .m15, sm.overallBias with
  | some tf15, some b =>
      if tf15.trend = .NEUTRAL then true
      else decide (tf15.trend.toDirection = b.direction)
  | _, _ => false

/-- `check5MEntry(smartMoney, marketData)` (lines 321-335): needs the 5M
analysis and the 5M market-data key, then at least one of institutional
level / order block / FVG. -/
def check5MEntry (sm : SmartMoneyAnalysis) (md : MarketData) : Bool :=
  match sm.timeframes .m5, md .m5 with
  | some tf5, some _ =>
      tf5.institutionalLevel.isSome || decide (tf5.orderBlocks ≠ []) ||
        decide (tf5.fairValueGaps ≠ [])
  | _, _ => false

/-- `checkSmartMoneyConfirmation(smartMoney)` (lines 340-363): alignment
confidence ≥ 50 OR an unmitigated order block / BOS / sweep in 5M, 15M
or 1H. -/
def checkSmartMoneyConfirmation (sm : SmartMoneyAnalysis) : Bool :=
  decide (50 ≤ sm.alignment.confidence) ||
  (hasActiveOB (sm.timeframes .m5) || hasActiveOB (sm.timeframes .m15) ||
    hasActiveOB (sm.timeframes .h1)) ||
  (hasBOSField (sm.timeframes .m5) || hasBOSField (sm.timeframes .m15) ||
    hasBOSField (sm.timeframes .h1)) ||
  (hasSweepsField (sm.timeframes .m5) || hasSweepsField (sm.timeframes .m15) ||
    hasSweepsField (sm.timeframes .h1))

/-- `checkFundamentalAlignment(smartMoney, fundamental)` (lines 368-382):
a missing or NEUTRAL fundamental direction passes; a fundamental at
confidence > 70 blocks only when the structural direction literally
equals `'BUY'` (against SELL) or `'SELL'` (against BUY). -/
def checkFundamentalAlignment (smDirection : Option Direction) (fund : Fundamental) : Bool :=
  match fund.fundamentalBias with
  | none => true
  | some fb =>
      if fb.direction = .NEUTRAL then true
      else if 70 < fb.confidence ∧ smDirection = some .BUY ∧ fb.direction = .SELL then false
      else if 70 < fb.confidence ∧ smDirection = some .SELL ∧ fb.direction = .BUY then false
      else true

/-- `calculateConfluence(smartMoney, technical, marketData)` (lines
387-445): seven independent 1-point conditions. -/
def calculateConfluence (sm : SmartMoneyAnalysis) (technical : Technical)
    (md : MarketData) : ℕ :=
  (if (match sm.overallBias with
       | some b => decide (b.direction ≠ .NEUTRAL)
       | none => false) then 1 else 0) +
  (if decide (40 ≤ sm.alignment.confidence) then 1 else 0) +
  (if (match (md .m15).bind List.getLast? with
       | some c => decide (500 < c.volume)
       | none => false) then 1 else 0) +
  (if decide (55 < technical.confidence) then 1 else 0) +
  (if ((match sm.timeframes .h4, sm.timeframes .h1 with
        | some a, some b => decide (a.trend = b.trend ∧ a.trend ≠ .NEUTRAL)
        | _, _ => false) ||
       (match sm.timeframes .h1, sm.timeframes .m15 with
        | some a, some b => decide (a.trend = b.trend ∧ a.trend ≠ .NEUTRAL)
        | _, _ => false)) then 1 else 0) +
  (if (hasActiveOB (sm.timeframes .m5) || hasActiveOB (sm.timeframes .m15) ||
       hasActiveOB (sm.timeframes .h1)) then 1 else 0) +
  (if (hasFVGsField (sm.timeframes .m5) || hasFVGsField (sm.timeframes .m15) ||
       hasBOSField (sm.timeframes .m5) || hasBOSField (sm.timeframes .m15) ||
       hasSweepsField (sm.timeframes .m5) || hasSweepsField (sm.timeframes .m15))
    then 1 else 0)

/-- `x.toFixed(d)` where the result is later consumed as a number:
rounding to `d` decimal places. -/
def toFixedQ (d : ℕ) (x : ℚ) : ℚ := (round (x * 10 ^ d) : ℚ) / 10 ^ d

/-- `'MARKET' | 'LIMIT'`. -/
inductive OrderType
  | MARKET
  | LIMIT
deriving DecidableEq, Repr

/-- The object returned by `calculateTradeSetup` (lines 469-551); the
numeric fields carry the `toFixed` rounding under which the engine later
reads them back. -/
structure TradeSetup where
  direction : Direction
  orderType : OrderType
  entry : ℚ
  stopLoss : ℚ
  takeProfit : ℚ
  stopDistance : ℚ
  takeDistance : ℚ
  riskReward : ℚ
  stopLossPercent : ℚ
deriving DecidableEq, Repr

/-- `calculateTradeSetup(smartMoney, technical, marketData)`:
`none` models the JavaScript `TypeError` thrown when `overallBias` is
`null` or the 5M candle window is missing/empty.  Note the source
compares `direction` against the literals `'BUY'`/`'SELL'` although the
bias direction is `BULLISH`/`BEARISH`/`NEUTRAL`/`CONFLICTED`; any other
value falls to the conservative-defaults branch. -/
def calculateTradeSetup (sm : SmartMoneyAnalysis) (md : MarketData) : Option TradeSetup :=
  match sm.overallBias, (md .m5).bind List.getLast? with
  | some bias, some lastCandle =>
      let currentPrice := lastCandle.close
      let tf5 := sm.timeframes .m5
      let res : ℚ × ℚ × ℚ × OrderType :=
        if bias.direction = .BUY then
          let swingLows := match tf5 with | some t => t.liquidity.below | none => []
          let stopLoss :=
            if swingLows ≠ [] then
              (((swingLows.drop (swingLows.length - 3)).map (·.price)) ++
                [currentPrice * (197 / 200)]).min?.getD (currentPrice * (197 / 200))
            else currentPrice * (197 / 200)
          let takeProfit :=
            match (match tf5 with | some t => t.liquidity.above | none => []).getLast? with
            | some z => z.price
            | none => currentPrice * (103 / 100)
          match (match tf5 with | some t => t.orderBlocks | none => []).find? (fun (ob : OrderBlock) =>
              decide (ob.type = OBKind.BULLISH_OB) && !ob.mitigated &&
              decide (ob.high < currentPrice) && decide (stopLoss < ob.high)) with
          | some ob => (ob.high, stopLoss, takeProfit, OrderType.LIMIT)
          | none => (currentPrice, stopLoss, takeProfit, OrderType.MARKET)
        else if bias.direction = .SELL then
          let swingHighs := match tf5 with | some t => t.liquidity.above | none => []
          let stopLoss :=
            if swingHighs ≠ [] then
              (((swingHighs.drop (swingHighs.length - 3)).map (·.price)) ++
                [currentPrice * (203 / 200)]).max?.getD (currentPrice * (203 / 200))
            else currentPrice * (203 / 200)
          let takeProfit :=
            match (match tf5 with | some t => t.liquidity.below | none => []).getLast? with
            | some z => z.price
            | none => currentPrice * (97 / 100)
          match (match tf5 with | some t => t.orderBlocks | none => []).find? (fun (ob : OrderBlock) =>
              decide (ob.type = OBKind.BEARISH_OB) && !ob.mitigated &&
              decide (currentPrice < ob.low) && decide (ob.low < stopLoss)) with
          | some ob => (ob.low, stopLoss, takeProfit, OrderType.LIMIT)
          | none => (currentPrice, stopLoss, takeProfit, OrderType.MARKET)
        else
          (currentPrice, currentPrice * (197 / 200), currentPrice * (103 / 100),
            OrderType.MARKET)
      let entry := res.1
      let stopLoss := if res.2.1 = 0 then currentPrice * (197 / 200) else res.2.1
      let takeProfit := if res.2.2.1 = 0 then currentPrice * (103 / 100) else res.2.2.1
      let stopDistance := |entry - stopLoss|
      let takeDistance := |takeProfit - entry|
      let riskReward := if 0 < stopDistance then takeDistance / stopDistance else 0
      some
        { direction := bias.direction
          orderType := res.2.2.2
          entry := toFixedQ 5 entry
          stopLoss := toFixedQ 5 stopLoss
          takeProfit := toFixedQ 5 takeProfit
          stopDistance := toFixedQ 5 stopDistance
          takeDistance := toFixedQ 5 takeDistance
          riskReward := toFixedQ 2 riskReward
          stopLossPercent := toFixedQ 2 (stopDistance / entry * 100) }
  | _, _ => none

/-- `validateStopLoss(tradeSetup, marketData)` (lines 556-564): the
parsed stop-loss percentage must not exceed `maxStopLossPercent`. -/
def validateStopLoss (setup : TradeSetup) : Bool :=
  decide (setup.stopLossPercent ≤ maxStopLossPercent)

/-- `checkNotRanging(marketData)` (lines 450-464): missing or short 4H
data counts as not ranging; otherwise the trailing-20 range must exceed
0.5% of the mid price. -/
def checkNotRanging (md : MarketData) : Bool :=
  match md .h4 with
  | none => true
  | some candles4H =>
      if candles4H.length < 20 then true
      else
        decide ((1 : ℚ) / 2 <
          (((candles4H.drop (candles4H.length - 20)).map (·.high)).max?.getD 0 -
            ((candles4H.drop (candles4H.length - 20)).map (·.low)).min?.getD 0) /
          ((((candles4H.drop (candles4H.length - 20)).map (·.high)).max?.getD 0 +
            ((candles4H.drop (candles4H.length - 20)).map (·.low)).min?.getD 0) / 2) * 100)

/-- The `criteria` object as first built by `processDecision` (lines
173-206): the eight computed checks plus `correlationAligned`,
`stopLossValid: true` and `riskRewardOk: false` placeholders. -/
def initialCriteria (sm : SmartMoneyAnalysis) (technical : Technical)
    (fundamental : Fundamental) (correlation : Correlation) (md : MarketData) : Criteria :=
  { tf4H_1H_aligned := checkHigherTFAlignment sm
    tf15M_confirmation := check15MConfirmation sm
    tf5M_entry := check5MEntry sm md
    smartMoneyConfirms := checkSmartMoneyConfirmation sm
    confluenceOk := decide (minConfluence ≤ calculateConfluence sm technical md)
    mlProbabilityOk := decide (minMLProbability ≤ technical.confidence)
    fundamentalNotAgainst :=
      checkFundamentalAlignment (sm.overallBias.map (·.direction)) fundamental
    notRanging := checkNotRanging md
    correlationAligned := correlation.allowTrade
    stopLossValid := true
    riskRewardOk := false }

/-- Which `return` of `processDecision` produced a rejection: the
consecutive-loss pause, the mandatory gate (`passedMandatoryCount < 2`,
with its named failed checks), or the final ≥50% gate. -/
inductive RejectReason
  | lossPause
  | mandatoryGate (passed : ℕ) (failedChecks : List CriterionName)
  | finalGate (metCount : ℕ)
deriving DecidableEq, Repr

/-- A `NO_TRADE` decision: the reason and the `failedCriteria` list of
`generateRejectionDecision`. -/
structure Rejection where
  reason : RejectReason
  failedCriteria : List CriterionName
deriving DecidableEq, Repr

/-- A `TRADE_APPROVED` decision: direction, setup, the rounded blended
probability (technical 40% + structural 35% + fundamental 25%), and the
final criteria. -/
structure ApprovedSignal where
  direction : Direction
  setup : TradeSetup
  overallProbability : ℤ
  criteria : Criteria
deriving DecidableEq, Repr

/-- The decision emitted by `processDecision`. -/
inductive Decision
  | approved (signal : ApprovedSignal)
  | rejected (r : Rejection)
deriving DecidableEq, Repr

/-- `processDecision(smartMoney, technical, fundamental, correlation,
pair, marketData)` (lines 156-277).  `none` models a thrown `TypeError`
(null `overallBias` / missing or empty 5M window reached inside
`calculateTradeSetup`, or a null `fundamentalBias` reached inside
`generateTradeSignal`). -/
def processDecision (consecutiveLosses : ℕ) (sm : SmartMoneyAnalysis)
    (technical : Technical) (fundamental : Fundamental) (correlation : Correlation)
    (md : MarketData) : Option Decision :=
  if maxConsecutiveLosses ≤ consecutiveLosses then
    some (.rejected ⟨.lossPause, []⟩)
  else
    let criteria := initialCriteria sm technical fundamental correlation md
    if mandatoryPassedCount criteria < 2 then
      some (.rejected ⟨.mandatoryGate (mandatoryPassedCount criteria)
        (mandatoryFailedChecks criteria), failedCriteriaOf criteria⟩)
    else
      match calculateTradeSetup sm md with
      | none => none
      | some setup =>
          let criteria2 := { criteria with
            stopLossValid := validateStopLoss setup
            riskRewardOk := decide (minRiskReward ≤ setup.riskReward) }
          if ((criteriaValues criteria2).count true : ℚ) / 11 * 100 < 50 then
            some (.rejected ⟨.finalGate ((criteriaValues criteria2).count true),
              failedCriteriaOf criteria2⟩)
          else
            match fundamental.fundamentalBias with
            | none => none
            | some fb =>
                some (.approved ⟨setup.direction, setup,
                  round (technical.confidence * (2 / 5) +
                    sm.alignment.confidence * (7 / 20) + fb.confidence * (1 / 4)),
                  criteria2⟩)

/-- Whether the outcome is a `TRADE_APPROVED` signal. -/
def decisionIsApproved : Option Decision → Bool
  | some (.approved _) => true
  | _ => false

/-- Whether the outcome is a rejection issued by the mandatory
(2-of-4) gate. -/
def isMandatoryRejection : Option Decision → Bool
  | some (.rejected r) =>
      match r.reason with
      | .mandatoryGate _ _ => true
      | _ => false
  | _ => false

section DecisionLemmas

lemma determineOverallBias_not_buy_sell {a4 a1 : Option Trend} {b : OverallBias}
    (h : determineOverallBias a4 a1 = some b) :
    b.direction ≠ .BUY ∧ b.direction ≠ .SELL := by
  rcases a4 with _ | t4 <;> rcases a1 with _ | t1 <;> unfold determineOverallBias at h <;>
    try simp at h
  split_ifs at h <;> (injection h with h'; subst h'; cases t4 <;> decide)

lemma mandatoryFailed_subset_failedCriteria (c : Criteria) :
    ∀ n ∈ mandatoryFailedChecks c, n ∈ failedCriteriaOf c := by
  intro n hn
  simp only [mandatoryFailedChecks, List.mem_append] at hn
  simp only [failedCriteriaOf, List.mem_append]
  rcases hn with ((hn | hn) | hn) | hn <;>
    · split_ifs at hn with hflag <;>
        simp only [List.mem_singleton, List.not_mem_nil] at hn
      subst hn
      simp [hflag]

end DecisionLemmas

/-- C10: For every overall bias actually produced by
`determineOverallBias` (direction BULLISH, BEARISH, NEUTRAL or
CONFLICTED) and every fundamental opinion, `checkFundamentalAlignment`
returns true: its blocking branch compares the structural direction
against the literals `'BUY'`/`'SELL'` and is unreachable, so the
`fundamentalNotAgainst` criterion always passes. -/
theorem fundamentalNotAgainst_always_true (a4 a1 : Option Trend) (b : OverallBias)
    (h : determineOverallBias a4 a1 = some b) (fund : Fundamental) :
    checkFundamentalAlignment (some b.direction) fund = true := by
  obtain ⟨hBuy, hSell⟩ := determineOverallBias_not_buy_sell h
  unfold checkFundamentalAlignment
  cases hfb : fund.fundamentalBias with
  | none => rfl
  | some fb =>
      show (if fb.direction = Direction.NEUTRAL then true
        else if 70 < fb.confidence ∧ some b.direction = some Direction.BUY ∧
            fb.direction = Direction.SELL then false
        else if 70 < fb.confidence ∧ some b.direction = some Direction.SELL ∧
            fb.direction = Direction.BUY then false
        else true) = true
      split_ifs with h1 h2 h3
      · rfl
      · exact absurd (Option.some.inj h2.2.1) hBuy
      · exact absurd (Option.some.inj h3.2.1) hSell
      · rfl

/-- Witness for C10: a strongly-opposed fundamental (SELL at 90) does not
block a CONFLICTED structural bias. -/
theorem fundamentalNotAgainst_always_true_witness :
    checkFundamentalAlignment (some Direction.CONFLICTED)
      ⟨some ⟨Direction.SELL, 90⟩⟩ = true :=
  fundamentalNotAgainst_always_true (some .BULLISH) (some .BEARISH)
    ⟨.CONFLICTED, 30⟩ (by decide) ⟨some ⟨Direction.SELL, 90⟩⟩

/-- A minimal per-timeframe analysis: the given trend and institutional
level, with no structures. -/
def c3TFA (t : Trend) (il : Option ℚ) : TFAnalysis :=
  ⟨t, [], false, [], ⟨[], [], []⟩, il⟩

/-- An aggregator output whose coarsest two timeframes hold conflicting
non-neutral trends (4H BULLISH vs 1H BEARISH) and whose overall bias is
the resulting CONFLICTED/30; the alignment object is `checkAlignment` of
the four trends (one BULLISH, one BEARISH, two NEUTRAL → NEUTRAL at
50). -/
def c3sm : SmartMoneyAnalysis :=
  { timeframes := fun tf =>
      match tf with
      | .h4 => some (c3TFA .BULLISH none)
      | .h1 => some (c3TFA .BEARISH none)
      | .m15 => some (c3TFA .NEUTRAL none)
      | .m5 => some (c3TFA .NEUTRAL (some 100))
    overallBias := some ⟨.CONFLICTED, 30⟩
    alignment := ⟨false, .NEUTRAL, 50⟩ }

/-- Market data for the CONFLICTED counterexample: one candle at price
100 / volume 1000 on 5M and 15M, empty 4H and 1H windows. -/
def c3md : MarketData := fun tf =>
  match tf with
  | .m5 => some [⟨0, 100, 100, 100, 100, 1000⟩]
  | .m15 => some [⟨0, 100, 100, 100, 100, 1000⟩]
  | .h1 => some []
  | .h4 => some []

/-- Technical opinion at 80% confidence. -/
def c3technical : Technical := ⟨80⟩

/-- A neutral fundamental opinion. -/
def c3fundamental : Fundamental := ⟨some ⟨.NEUTRAL, 50⟩⟩

/-- A correlation verdict that allows the trade. -/
def c3correlation : Correlation := ⟨true⟩

/-- C3 counterexample: with conflicting non-neutral 4H/1H trends, an
overall bias of CONFLICTED/30 (exactly what `determineOverallBias`
produces for them, and consistent with `checkAlignment` of the four
trends), `processDecision` APPROVES the trade: CONFLICTED is not a hard
veto — it fails only the non-mandatory `tf4H_1H_aligned` criterion, and
10 of 11 criteria still pass the 50% gate. -/
theorem conflicted_bias_approved_cex :
    (c3sm.timeframes .h4).map TFAnalysis.trend = some .BULLISH ∧
    (c3sm.timeframes .h1).map TFAnalysis.trend = some .BEARISH ∧
    determineOverallBias (some .BULLISH) (some .BEARISH) = some ⟨.CONFLICTED, 30⟩ ∧
    c3sm.overallBias = some ⟨.CONFLICTED, 30⟩ ∧
    c3sm.alignment = checkAlignment (fun tf => (c3sm.timeframes tf).map TFAnalysis.trend) ∧
    decisionIsApproved
      (processDecision 0 c3sm c3technical c3fundamental c3correlation c3md) = true := by
  refine ⟨rfl, rfl, by decide, rfl, by decide, ?_⟩
  norm_num +decide [processDecision, initialCriteria, c3sm, c3md, c3technical,
    c3fundamental, c3correlation, c3TFA, checkHigherTFAlignment, check15MConfirmation,
    check5MEntry, checkSmartMoneyConfirmation, checkFundamentalAlignment,
    calculateConfluence, checkNotRanging, hasActiveOB, hasBOSField, hasSweepsField,
    hasFVGsField, mandatoryPassedCount, calculateTradeSetup, validateStopLoss, toFixedQ,
    criteriaValues, minConfluence, minMLProbability, minRiskReward, maxStopLossPercent,
    maxConsecutiveLosses, decisionIsApproved, round_eq, Trend.toDirection,
    List.count_cons, List.getLast?, abs_of_pos, abs_of_nonneg]

/-- C3 amended: a CONFLICTED overall bias (conflicting non-neutral 4H/1H
trends) forces the `tf4H_1H_aligned` criterion to false — that is the
only place the conflict enters the gating, and it is not a hard veto
(see the counterexample, where the decision is nonetheless APPROVED). -/
theorem conflicted_forces_higherTF_check_false (sm : SmartMoneyAnalysis)
    (a4 a1 : TFAnalysis) (h4 : sm.timeframes .h4 = some a4)
    (h1 : sm.timeframes .h1 = some a1) (hn4 : a4.trend ≠ .NEUTRAL)
    (hn1 : a1.trend ≠ .NEUTRAL) (hne : a4.trend ≠ a1.trend) :
    checkHigherTFAlignment sm = false := by
  unfold checkHigherTFAlignment
  rw [h4, h1]
  show (if a4.trend = Trend.NEUTRAL ∧ a1.trend = Trend.NEUTRAL then false
    else if a4.trend ≠ Trend.NEUTRAL ∧ a1.trend ≠ Trend.NEUTRAL ∧ a4.trend ≠ a1.trend
      then false
    else match sm.overallBias with
      | some b => decide (55 ≤ b.confidence)
      | none => false) = false
  rw [if_neg fun hc => hn4 hc.1, if_pos ⟨hn4, hn1, hne⟩]

/-- Witness for C3's amended theorem at the counterexample input. -/
theorem conflicted_forces_higherTF_check_false_witness :
    checkHigherTFAlignment c3sm = false :=
  conflicted_forces_higherTF_check_false c3sm (c3TFA .BULLISH none)
    (c3TFA .BEARISH none) rfl rfl (by decide) (by decide) (by decide)

/-- C8: With the consecutive-loss ceiling not reached, if strictly fewer
than 2 of the four mandatory checks (confluence ≥ 3, technical
confidence ≥ 58, Smart-Money confirmation, market not range-bound) hold,
`processDecision` rejects at the mandatory gate, its reason carries
exactly the failed mandatory checks, and its `failedCriteria` list names
every one of them; if at least 2 hold, no mandatory-gate rejection
occurs. -/
theorem mandatory_gate_2of4 (sm : SmartMoneyAnalysis) (technical : Technical)
    (fundamental : Fundamental) (correlation : Correlation) (md : MarketData)
    (losses : ℕ) (h : losses < maxConsecutiveLosses) :
    (mandatoryPassedCount (initialCriteria sm technical fundamental correlation md) < 2 →
      processDecision losses sm technical fundamental correlation md =
        some (.rejected
          ⟨.mandatoryGate
              (mandatoryPassedCount (initialCriteria sm technical fundamental correlation md))
              (mandatoryFailedChecks (initialCriteria sm technical fundamental correlation md)),
            failedCriteriaOf (initialCriteria sm technical fundamental correlation md)⟩) ∧
      ∀ n ∈ mandatoryFailedChecks (initialCriteria sm technical fundamental correlation md),
        n ∈ failedCriteriaOf (initialCriteria sm technical fundamental correlation md)) ∧
    (2 ≤ mandatoryPassedCount (initialCriteria sm technical fundamental correlation md) →
      isMandatoryRejection (processDecision losses sm technical fundamental correlation md) =
        false) := by
  constructor
  · intro hlt
    constructor
    · simp only [processDecision]
      rw [if_neg (by omega : ¬ maxConsecutiveLosses ≤ losses), if_pos hlt]
    · exact mandatoryFailed_subset_failedCriteria _
  · intro hge
    simp only [processDecision]
    rw [if_neg (by omega : ¬ maxConsecutiveLosses ≤ losses), if_neg (not_lt.mpr hge)]
    cases hsetup : calculateTradeSetup sm md with
    | none => rfl
    | some setup =>
        simp only []
        split
        · rfl
        · cases fundamental.fundamentalBias <;> rfl

/-- An aggregator output with no analyzed timeframes, no overall bias and
zero alignment confidence. -/
def w8sm : SmartMoneyAnalysis := ⟨fun _ => none, none, ⟨false, .NEUTRAL, 0⟩⟩

/-- Market data with every timeframe key absent. -/
def w8md : MarketData := fun _ => none

/-- Technical opinion at 10% confidence (fails both the 58 floor and the
confluence contribution). -/
def w8technical : Technical := ⟨10⟩

/-- A missing fundamental bias. -/
def w8fundamental : Fundamental := ⟨none⟩

/-- A correlation verdict that allows the trade. -/
def w8correlation : Correlation := ⟨true⟩

/-- Witness for C8: with only `notRanging` passing (1 of 4), the decision
is the mandatory-gate rejection and `confluenceOk` is among the named
failed criteria. -/
theorem mandatory_gate_2of4_witness :
    processDecision 0 w8sm w8technical w8fundamental w8correlation w8md =
      some (.rejected
        ⟨.mandatoryGate
            (mandatoryPassedCount (initialCriteria w8sm w8technical w8fundamental
              w8correlation w8md))
            (mandatoryFailedChecks (initialCriteria w8sm w8technical w8fundamental
              w8correlation w8md)),
          failedCriteriaOf (initialCriteria w8sm w8technical w8fundamental
            w8correlation w8md)⟩) ∧
    CriterionName.confluenceOk ∈
      failedCriteriaOf (initialCriteria w8sm w8technical w8fundamental w8correlation w8md) := by
  have h := (mandatory_gate_2of4 w8sm w8technical w8fundamental w8correlation w8md 0
    (by decide)).1 (by decide)
  exact ⟨h.1, h.2 CriterionName.confluenceOk (by decide)⟩

end ForexAI
